import Mathlib

/-!
Verification of the banana-sales-manager synchronization core.

Shallow embedding of `src/backend/server.js` and `src/database/schema.sql`:
the `sales`, `conflicts` and `sync_log` tables, the PostgreSQL trigger
pipeline (`detect_conflicts`, `update_updated_at_column`), the stored
procedures (`soft_delete_sale`, `resolve_conflict_last_write_wins`), the
HTTP mutation handlers, the `RateLimiter` class, the WebSocket message
handler and the `broadcast` fan-out.

Numeric columns (DECIMAL) are modelled as `Int`; timestamps as `Int`
milliseconds; UUIDs as `Nat` counters threaded through the store.
-/

set_option maxRecDepth 4096

namespace BananaSales

/-- A row of the `sales` table (schema.sql lines 14-41).  The generated
column `outstanding_balance` (always `total - amount_received`) is omitted
as derived data. -/
structure Sale where
  id : Nat
  product : String
  quantity : Int
  price : Int
  total : Int
  customer : String
  notes : String
  payment_status : String
  payment_method : String
  amount_received : Int
  created_at : Int
  updated_at : Int
  version : Int
  device_id : String
  user_id : String
  deleted_at : Option Int
  is_deleted : Bool
  last_sync_at : Option Int
  sync_status : String
deriving Repr, DecidableEq

/-- A row of the `conflicts` table (schema.sql lines 72-85).  The JSONB
snapshots `data_1`/`data_2` hold full sale rows. -/
structure Conflict where
  id : Nat
  table_name : String
  record_id : Nat
  device_id_1 : String
  device_id_2 : String
  data_1 : Sale
  data_2 : Sale
  resolution_data : Option Sale
  resolution_strategy : Option String
  resolved_at : Option Int
  is_resolved : Bool
  created_at : Int
deriving Repr, DecidableEq

/-- A row of the `sync_log` table (schema.sql lines 56-69). -/
structure SyncLogEntry where
  device_id : String
  operation_type : String
  table_name : String
  record_id : Option Nat
  old_data : Option Sale
  new_data : Option Sale
  created_at : Int
deriving Repr, DecidableEq

/-- The database state: the tables touched by the sync core, plus counters
standing in for UUID generation (fresh ids for conflicts and sales).
The `devices` table is reduced to the set of registered device ids; its
bookkeeping columns (`last_seen_at`, `is_active`) are not read anywhere. -/
structure Store where
  sales : List Sale
  conflicts : List Conflict
  syncLog : List SyncLogEntry
  devices : List String
  nextCid : Nat
  nextSaleId : Nat
deriving Repr, DecidableEq

/-! ## Trigger pipeline

Both triggers on `sales` are `BEFORE UPDATE ... FOR EACH ROW`.  PostgreSQL
fires same-event row triggers in alphabetical order by trigger name, so
`detect_sales_conflicts` runs before `update_sales_updated_at`; the second
trigger receives the row returned by the first. -/

/-- Condition of the `detect_conflicts` trigger (schema.sql line 143):
`OLD.version != NEW.version - 1 AND OLD.device_id != NEW.device_id`,
where `NEW` is the row as assigned by the UPDATE statement (no statement
in the code base assigns `version`, so at this point `NEW.version`
still equals `OLD.version`). -/
def detectHit (old new : Sale) : Bool :=
  (old.version != new.version - 1) && (old.device_id != new.device_id)

/-- The conflict row inserted by `detect_conflicts` (schema.sql lines
145-153): `row_to_json(OLD)` and `row_to_json(NEW)` taken before the
trigger sets `NEW.sync_status = 'conflict'`. -/
def mkConflict (cid : Nat) (old new : Sale) (now : Int) : Conflict :=
  { id := cid
    table_name := "sales"
    record_id := new.id
    device_id_1 := old.device_id
    device_id_2 := new.device_id
    data_1 := old
    data_2 := new
    resolution_data := none
    resolution_strategy := none
    resolved_at := none
    is_resolved := false
    created_at := now }

/-- The `detect_conflicts` trigger function (schema.sql lines 139-161):
on a hit it records a conflict row and marks the row's `sync_status`
as `'conflict'`. -/
def detect_conflicts (old new : Sale) (now : Int) (cid : Nat) :
    Sale × Option Conflict :=
  if detectHit old new then
    ({ new with sync_status := "conflict" }, some (mkConflict cid old new now))
  else
    (new, none)

/-- The `update_updated_at_column` trigger function (schema.sql lines
123-130): `NEW.updated_at = CURRENT_TIMESTAMP; NEW.version = OLD.version + 1`. -/
def update_updated_at_column (old new : Sale) (now : Int) : Sale :=
  { new with updated_at := now, version := old.version + 1 }

/-- Full `BEFORE UPDATE` trigger chain on one row: `detect_sales_conflicts`
then `update_sales_updated_at`. -/
def applyRowTriggers (old new : Sale) (now : Int) (cid : Nat) :
    Sale × Option Conflict :=
  let d := detect_conflicts old new now cid
  (update_updated_at_column old d.1 now, d.2)

/-- The row produced by running the trigger chain over the assignment of an
UPDATE statement; the conflict counter does not influence the row itself. -/
def rowAfterUpdate (assign : Sale → Sale) (now : Int) (s : Sale) : Sale :=
  update_updated_at_column s
    (if detectHit s (assign s) then { assign s with sync_status := "conflict" }
     else assign s) now

/-- Result of executing `UPDATE sales SET ... WHERE ...`: the new table
contents, the freshly inserted conflict rows, the `RETURNING *` rows and
the advanced conflict-id counter. -/
structure UpdateOut where
  rows : List Sale
  newConflicts : List Conflict
  returning : List Sale
  nextCid : Nat
deriving Repr, DecidableEq

/-- Row-by-row execution of an UPDATE on `sales`, firing the trigger chain
for every row matched by the WHERE condition. -/
def runRows (cond : Sale → Bool) (assign : Sale → Sale) (now : Int) :
    List Sale → Nat → UpdateOut
  | [], cid => ⟨[], [], [], cid⟩
  | s :: rest, cid =>
    if cond s then
      let pr := applyRowTriggers s (assign s) now cid
      let cid' := cid + (if pr.2.isSome then 1 else 0)
      let o := runRows cond assign now rest cid'
      ⟨pr.1 :: o.rows, pr.2.toList ++ o.newConflicts, pr.1 :: o.returning, o.nextCid⟩
    else
      let o := runRows cond assign now rest cid
      ⟨s :: o.rows, o.newConflicts, o.returning, o.nextCid⟩

/-- `UPDATE sales SET <assign> WHERE <cond>` against the store, with the
new conflict rows appended to the `conflicts` table; returns the
`RETURNING *` rows. -/
def runSalesUpdate (st : Store) (cond : Sale → Bool) (assign : Sale → Sale)
    (now : Int) : Store × List Sale :=
  let o := runRows cond assign now st.sales st.nextCid
  ({ st with sales := o.rows, conflicts := st.conflicts ++ o.newConflicts,
             nextCid := o.nextCid }, o.returning)

/-- WHERE clause `id = $1 AND is_deleted = FALSE` used by the read, update
and soft-delete paths. -/
def saleLive (i : Nat) (s : Sale) : Bool :=
  s.id == i && !s.is_deleted

/-- `SELECT * FROM sales WHERE id = $1 AND is_deleted = FALSE`
(server.js lines 1039-1043). -/
def getCurrentSale (st : Store) (i : Nat) : Option Sale :=
  st.sales.find? (saleLive i)

/-! ## HTTP mutation handlers -/

/-- Request body of `PUT /api/sales/:id`: every mutable column is optional
(`COALESCE` keeps the old value when absent). -/
structure SalePatch where
  product : Option String
  quantity : Option Int
  price : Option Int
  total : Option Int
  customer : Option String
  notes : Option String
  payment_status : Option String
  payment_method : Option String
  amount_received : Option Int
deriving Repr, DecidableEq

/-- The SET list of the UPDATE in `PUT /api/sales/:id` (server.js lines
1089-1106): `COALESCE` patch semantics, `device_id = $11`,
`sync_status = 'pending'`, `updated_at = NOW()`. -/
def putAssign (p : SalePatch) (dev : String) (now : Int) (s : Sale) : Sale :=
  { s with
    product := p.product.getD s.product
    quantity := p.quantity.getD s.quantity
    price := p.price.getD s.price
    total := p.total.getD s.total
    customer := p.customer.getD s.customer
    notes := p.notes.getD s.notes
    payment_status := p.payment_status.getD s.payment_status
    payment_method := p.payment_method.getD s.payment_method
    amount_received := p.amount_received.getD s.amount_received
    device_id := dev
    sync_status := "pending"
    updated_at := now }

/-- Responses of `PUT /api/sales/:id`: 400 validation errors, 404, the
409 version-conflict body carrying `current_version` and `current_data`,
and the 200 success body carrying the updated row.  `okEmpty` is the
degenerate 200 in which the separate UPDATE matched no row (only possible
when the row changed between the handler's read and its write). -/
inductive PutResponse
  | validationError (code : String)
  | notFound
  | versionConflict (current_version : Int) (current_data : Sale)
  | ok (data : Sale)
  | okEmpty
deriving Repr, DecidableEq

/-- HTTP status attached to each `PUT /api/sales/:id` response. -/
def putStatus : PutResponse → Nat
  | .validationError _ => 400
  | .notFound => 404
  | .versionConflict _ _ => 409
  | .ok _ => 200
  | .okEmpty => 200

/-- JavaScript truthiness check `if (version && currentSale.version !== version)`
(server.js line 1055): a supplied version of `0` is falsy and disables the
optimistic-lock comparison. -/
def versionCheckFails (current : Sale) (version : Option Int) : Bool :=
  version.any (fun v => v != 0 && current.version != v)

/-- The `PUT /api/sales/:id` handler (server.js lines 1007-1144).

The handler issues its read (`DatabaseManager.executeQuery`) and its write
(`DatabaseManager.executeTransaction`) on two separately acquired pool
clients, i.e. in two distinct database transactions; the embedding makes
that explicit by taking the store observed by the read (`readSt`) and the
store the write executes against (`writeSt`) as separate arguments.  A run
without interference is `putSale st st ...`.  The best-effort audit-log
append and the broadcast fan-out that follow a successful write touch
neither the `sales` table nor the response body modelled here. -/
def putSale (readSt writeSt : Store) (i : Nat) (device_id : Option String)
    (p : SalePatch) (version : Option Int) (now : Int) : Store × PutResponse :=
  match device_id with
  | none => (writeSt, .validationError "MISSING_DEVICE_ID")
  | some dev =>
    match getCurrentSale readSt i with
    | none => (writeSt, .notFound)
    | some currentSale =>
      if versionCheckFails currentSale version then
        (writeSt, .versionConflict currentSale.version currentSale)
      else if p.quantity.any (fun q => q ≤ 0) then
        (writeSt, .validationError "INVALID_QUANTITY")
      else if p.price.any (fun q => q ≤ 0) then
        (writeSt, .validationError "INVALID_PRICE")
      else if p.total.any (fun q => q ≤ 0) then
        (writeSt, .validationError "INVALID_TOTAL")
      else
        let r := runSalesUpdate writeSt (saleLive i) (putAssign p dev now) now
        match r.2.head? with
        | some upd => (r.1, .ok upd)
        | none => (r.1, .okEmpty)

/-- SET list of the UPDATE inside `soft_delete_sale` (schema.sql lines
245-251): flag the row deleted, stamp `deleted_at`, record the deleting
device and mark the row pending for sync. -/
def softDeleteAssign (dev : String) (now : Int) (s : Sale) : Sale :=
  { s with is_deleted := true, deleted_at := some now,
           device_id := dev, sync_status := "pending" }

/-- The stored procedure `soft_delete_sale` (schema.sql lines 239-255):
an UPDATE setting the soft-delete flag — which therefore fires both row
triggers — returning SQL `FOUND`. -/
def soft_delete_sale (st : Store) (i : Nat) (dev : String) (now : Int) :
    Store × Bool :=
  let r := runSalesUpdate st (saleLive i) (softDeleteAssign dev now) now
  (r.1, !r.2.isEmpty)

/-- `SELECT * FROM conflicts WHERE id = $1` (first row). -/
def conflictById (st : Store) (cid : Nat) : Option Conflict :=
  st.conflicts.find? (fun c => c.id == cid)

/-- Snapshot chosen by `resolve_conflict_last_write_wins` (schema.sql lines
272-277): `data_1` when its `updated_at` is strictly later, otherwise
`data_2` — so a tie goes to `data_2`. -/
def lwwChoice (c : Conflict) : Sale :=
  if c.data_1.updated_at > c.data_2.updated_at then c.data_1 else c.data_2

/-- The resolution stamp written to the `conflicts` row (schema.sql lines
279-286). -/
def stampResolved (c : Conflict) (latest : Sale) (now : Int) : Conflict :=
  { c with resolution_data := some latest
           resolution_strategy := some "last_write_wins"
           resolved_at := some now
           is_resolved := true }

/-- SET list of the live-record overwrite performed by
`resolve_conflict_last_write_wins` (schema.sql lines 288-301): the mutable
business fields are taken from the chosen snapshot and `sync_status` is set
to `'synced'`; `device_id`, `version` and `updated_at` are not assigned
(the row triggers still fire on this UPDATE). -/
def resolveAssign (latest : Sale) (s : Sale) : Sale :=
  { s with
    product := latest.product
    quantity := latest.quantity
    price := latest.price
    total := latest.total
    customer := latest.customer
    notes := latest.notes
    payment_status := latest.payment_status
    payment_method := latest.payment_method
    amount_received := latest.amount_received
    sync_status := "synced" }

/-- The stored procedure `resolve_conflict_last_write_wins` (schema.sql
lines 258-305). -/
def resolve_conflict_last_write_wins (st : Store) (cid : Nat) (now : Int) :
    Store × Bool :=
  match conflictById st cid with
  | none => (st, false)
  | some c =>
    let latest := lwwChoice c
    let conflicts' := st.conflicts.map (fun k =>
      if k.id == cid then stampResolved k latest now else k)
    let r := runSalesUpdate { st with conflicts := conflicts' }
      (fun s => s.id == c.record_id) (resolveAssign latest) now
    (r.1, true)

/-- Responses of `POST /api/conflicts/:id/resolve` (server.js lines
1336-1359). -/
inductive ResolveResponse
  | okMsg
  | notFound
  | unsupportedStrategy
deriving Repr, DecidableEq

/-- The `POST /api/conflicts/:id/resolve` handler (server.js lines
1336-1359): only `last_write_wins` is supported. -/
def resolveConflictEndpoint (st : Store) (cid : Nat) (strategy : String)
    (now : Int) : Store × ResolveResponse :=
  if strategy == "last_write_wins" then
    let r := resolve_conflict_last_write_wins st cid now
    (r.1, if r.2 then .okMsg else .notFound)
  else
    (st, .unsupportedStrategy)

/-- `INSERT INTO sync_log ...` as performed by `logSyncOperation`
(server.js lines 770-787): any database failure is caught inside the
function, which then returns `null` — it never throws, which the type
`Store × Option SyncLogEntry` makes total.  `fail` abstracts whether the
INSERT errors (in which case it has no durable effect). -/
def logSyncOperation (st : Store) (fail : Bool) (deviceId : String)
    (operationType tableName : String) (recordId : Option Nat)
    (oldData newData : Option Sale) (now : Int) :
    Store × Option SyncLogEntry :=
  if fail then
    (st, none)
  else
    let e : SyncLogEntry :=
      ⟨deviceId, operationType, tableName, recordId, oldData, newData, now⟩
    ({ st with syncLog := st.syncLog ++ [e] }, some e)

/-! ## RateLimiter (server.js lines 108-204) -/

/-- Per-client rate-limiter entry: `{ requests, lastReset, violations }`. -/
structure RLClient where
  requests : List Int
  lastReset : Int
  violations : Nat
deriving Repr, DecidableEq

/-- Decision object returned by `RateLimiter.isAllowed`.  The JavaScript
object has different fields on different paths; absent fields are `none`. -/
structure RLDecision where
  allowed : Bool
  remaining : Int
  resetTime : Option Int
  violations : Option Nat
deriving Repr, DecidableEq

/-- The limiter's `clients` map, as an insertion-ordered association list. -/
def RLState := List (String × RLClient)
deriving Repr, DecidableEq

/-- Map lookup. -/
def rlLookup (st : RLState) (k : String) : Option RLClient :=
  match st with
  | [] => none
  | p :: rest => if p.1 == k then some p.2 else rlLookup rest k

/-- `Map.set`: replace the entry for `k` in place, or append a fresh one. -/
def rlSet (st : RLState) (k : String) (v : RLClient) : RLState :=
  match st with
  | [] => [(k, v)]
  | p :: rest => if p.1 == k then (k, v) :: rest else p :: rlSet rest k v

/-- `this.maxRequestsPerMinute` (server.js line 111). -/
def maxRequestsPerMinute : Nat := 60

/-- `this.maxRequestsPerSecond` (server.js line 112). -/
def maxRequestsPerSecond : Nat := 10

/-- `RateLimiter.isAllowed(clientId, endpoint)` (server.js lines 116-169):
key `clientId + "_" + endpoint`; first call inserts `[now]` and accepts;
otherwise timestamps older than 60s are pruned (the pruned list is stored
back), the 60/minute cap is checked, then the 10/second burst cap over the
sub-window, and only an accepted call pushes `now`. -/
def isAllowed (st : RLState) (clientId endpoint : String) (now : Int) :
    RLDecision × RLState :=
  let clientKey := clientId ++ "_" ++ endpoint
  match rlLookup st clientKey with
  | none =>
    (⟨true, (maxRequestsPerMinute : Int) - 1, none, none⟩,
     rlSet st clientKey ⟨[now], now, 0⟩)
  | some client =>
    let oneMinuteAgo := now - 60000
    let reqs := client.requests.filter (fun t => t > oneMinuteAgo)
    let oneSecondAgo := now - 1000
    let recentRequests := reqs.filter (fun t => t > oneSecondAgo)
    if maxRequestsPerMinute ≤ reqs.length then
      (⟨false, 0, some (oneMinuteAgo + 60000), some (client.violations + 1)⟩,
       rlSet st clientKey ⟨reqs, client.lastReset, client.violations + 1⟩)
    else if maxRequestsPerSecond ≤ recentRequests.length then
      (⟨false, (maxRequestsPerMinute : Int) - reqs.length,
        some (oneSecondAgo + 1000), some (client.violations + 1)⟩,
       rlSet st clientKey ⟨reqs, client.lastReset, client.violations + 1⟩)
    else
      (⟨true, (maxRequestsPerMinute : Int) - (reqs.length + 1), none,
        some client.violations⟩,
       rlSet st clientKey ⟨reqs ++ [now], client.lastReset, client.violations⟩)

/-- A sequence of admission checks for one key, collecting the `allowed`
flags. -/
def runDecisions (clientId endpoint : String) :
    RLState → List Int → List Bool × RLState
  | st, [] => ([], st)
  | st, t :: ts =>
    let p := isAllowed st clientId endpoint t
    let q := runDecisions clientId endpoint p.2 ts
    (p.1.allowed :: q.1, q.2)

/-! ## WebSocket message handler (server.js lines 522-625) -/

/-- Inbound real-time messages recognised by the `switch` on `data.type`. -/
inductive WsIncoming
  | registerDevice (deviceId : Option String) (deviceName : Option String)
  | ping
  | getStats
  | unknown (tag : String)
deriving Repr, DecidableEq

/-- Server replies on the real-time channel. -/
inductive WsReply
  | pong (timestamp : Int)
  | rateLimitExceeded (resetTime : Option Int) (violations : Option Nat)
  | deviceRegistered (deviceId : String)
  | statsResponse
  | errorMsg (code : String)
deriving Repr, DecidableEq

/-- The JSON `type` tag of each reply. -/
def wsReplyType : WsReply → String
  | .pong _ => "pong"
  | .rateLimitExceeded _ _ => "rate_limit_exceeded"
  | .deviceRegistered _ => "device_registered"
  | .statsResponse => "stats_response"
  | .errorMsg _ => "error"

/-- One inbound message on a connection (server.js lines 522-625): the
admission check `rateLimiter.isAllowed(deviceId, 'websocket_message')` runs
first, and a rejected message is answered with `rate_limit_exceeded` and
never reaches the `switch` (lines 529-541).  `deviceKey` is the
`ws.deviceId || clientId` key used by the handler.  Database and broadcast
side effects of `register_device` are outside this model. -/
def handleWsMessage (rl : RLState) (deviceKey : String) (msg : WsIncoming)
    (now : Int) : WsReply × RLState :=
  let p := isAllowed rl deviceKey "websocket_message" now
  if p.1.allowed then
    match msg with
    | .ping => (.pong now, p.2)
    | .registerDevice none _ => (.errorMsg "MESSAGE_PROCESSING_ERROR", p.2)
    | .registerDevice (some did) _ => (.deviceRegistered did, p.2)
    | .getStats => (.statsResponse, p.2)
    | .unknown _ => (.errorMsg "UNKNOWN_MESSAGE_TYPE", p.2)
  else
    (.rateLimitExceeded p.1.resetTime p.1.violations, p.2)

/-- A burst of `ping` messages from one connection, collecting the replies. -/
def runPings (deviceKey : String) :
    RLState → List Int → List WsReply × RLState
  | rl, [] => ([], rl)
  | rl, t :: ts =>
    let p := handleWsMessage rl deviceKey .ping t
    let q := runPings deviceKey p.2 ts
    (p.1 :: q.1, q.2)

/-! ## Connection registry and broadcast (server.js lines 412-728) -/

/-- One entry of the `clients` map: the transport handle identity, the
bound device id (`null` until registration), whether `readyState` is
`OPEN`, and whether a `ws.send` on it succeeds (a throwing send is a
transport failure). -/
structure Conn where
  connId : Nat
  deviceId : Option String
  isOpen : Bool
  sendOk : Bool
deriving Repr, DecidableEq

/-- Outcome of the per-connection body of `broadcast` (server.js lines
682-699): a connection is attempted iff it is open and its bound deviceId
differs from `excludeDeviceId`; an attempted send either delivers or
fails (and a failed connection is removed from the registry). -/
inductive SendOutcome
  | delivered
  | failed
  | skipped
deriving Repr, DecidableEq

/-- Per-connection branch of the batched send. -/
def sendStep (ex : Option String) (c : Conn) : SendOutcome :=
  if c.isOpen && c.deviceId != ex then
    if c.sendOk then .delivered else .failed
  else
    .skipped

/-- `batchSize = 50` (server.js line 679). -/
def broadcastBatchSize : Nat := 50

/-- Split the snapshot of the registry into the fixed-size batches
processed by `processBatches` (server.js lines 704-713). -/
def toBatches (cs : List Conn) : List (List Conn) :=
  if h : cs = [] then
    []
  else
    cs.take broadcastBatchSize :: toBatches (cs.drop broadcastBatchSize)
termination_by cs.length
decreasing_by
  simp only [List.length_drop, broadcastBatchSize]
  have hlen : 0 < cs.length := List.length_pos.mpr h
  omega

/-- Batched fan-out over a snapshot of the registry, recording the outcome
for every connection. -/
def broadcastOutcomes (cs : List Conn) (ex : Option String) :
    List (Conn × SendOutcome) :=
  ((toBatches cs).map (fun batch => batch.map (fun c => (c, sendStep ex c)))).flatten

/-- Connections the broadcast delivers the event to. -/
def broadcastDelivered (cs : List Conn) (ex : Option String) : List Conn :=
  (broadcastOutcomes cs ex).filterMap
    (fun p => if p.2 = SendOutcome.delivered then some p.1 else none)

/-- Connections whose send failed (these are removed from the registry). -/
def broadcastFailed (cs : List Conn) (ex : Option String) : List Conn :=
  (broadcastOutcomes cs ex).filterMap
    (fun p => if p.2 = SendOutcome.failed then some p.1 else none)

/-- Registry contents after the fan-out: failed connections evicted. -/
def registryAfterBroadcast (cs : List Conn) (ex : Option String) : List Conn :=
  cs.filter (fun c => !(sendStep ex c == SendOutcome.failed))

/-! ## POST /api/sales (server.js lines 898-1004) -/

/-- Request body of `POST /api/sales`. -/
structure CreateBody where
  product : Option String
  quantity : Option Int
  price : Option Int
  total : Option Int
  customer : Option String
  notes : Option String
  payment_status : Option String
  payment_method : Option String
  amount_received : Option Int
  device_id : Option String
deriving Repr, DecidableEq

/-- JavaScript falsiness of an optional number (absent or `0`). -/
def intFalsy : Option Int → Bool
  | none => true
  | some n => n == 0

/-- JavaScript falsiness of an optional string (absent or empty). -/
def strFalsy : Option String → Bool
  | none => true
  | some s => s == ""

/-- Responses of `POST /api/sales`: 400 validation errors, or the 201 body
`{ success, data, sync: { broadcasted, clientsNotified } }`. -/
inductive PostResponse
  | validationError (code : String)
  | created (data : Sale) (broadcasted : Bool) (clientsNotified : Nat)
deriving Repr, DecidableEq

/-- `register_device` upsert (schema.sql lines 217-236), reduced to device
membership (its other effect only refreshes `last_seen_at`/`is_active`). -/
def registerDevice (st : Store) (dev : String) : Store :=
  if st.devices.contains dev then st
  else { st with devices := st.devices ++ [dev] }

/-- The `POST /api/sales` handler (server.js lines 898-1004): required-field
and positivity validation, device upsert, transactional INSERT (column
defaults `version = 1`, `sync_status = 'pending'`), best-effort
`logSyncOperation` (`logFail` abstracts an audit-log append failure), then
the broadcast fan-out excluding the writing device.  The 201 body depends
on the new row and the broadcast result but not on the audit-log outcome. -/
def postSale (st : Store) (conns : List Conn) (b : CreateBody)
    (logFail : Bool) (now : Int) : Store × PostResponse :=
  if intFalsy b.quantity || intFalsy b.price || intFalsy b.total ||
     strFalsy b.customer || strFalsy b.device_id then
    (st, .validationError "VALIDATION_ERROR")
  else if b.quantity.any (fun q => q ≤ 0) then
    (st, .validationError "INVALID_QUANTITY")
  else if b.price.any (fun q => q ≤ 0) then
    (st, .validationError "INVALID_PRICE")
  else if b.total.any (fun q => q ≤ 0) then
    (st, .validationError "INVALID_TOTAL")
  else
    let dev := b.device_id.getD ""
    let st1 := registerDevice st dev
    let sale : Sale :=
      { id := st1.nextSaleId
        product := b.product.getD "Bananas"
        quantity := b.quantity.getD 0
        price := b.price.getD 0
        total := b.total.getD 0
        customer := b.customer.getD ""
        notes := b.notes.getD ""
        payment_status := b.payment_status.getD "pending"
        payment_method := b.payment_method.getD ""
        amount_received := b.amount_received.getD 0
        created_at := now
        updated_at := now
        version := 1
        device_id := dev
        user_id := "anonymous"
        deleted_at := none
        is_deleted := false
        last_sync_at := none
        sync_status := "pending" }
    let st2 := { st1 with sales := st1.sales ++ [sale],
                          nextSaleId := st1.nextSaleId + 1 }
    let lg := logSyncOperation st2 logFail dev "CREATE" "sales"
      (some sale.id) none (some sale) now
    let delivered := broadcastDelivered conns (some dev)
    (lg.1, .created sale (decide (0 < delivered.length)) delivered.length)

/-! ## Derived row shapes -/

/-- The live row produced by the resolution overwrite once both triggers
have fired: the business fields come from the chosen snapshot,
`sync_status` becomes `'synced'`, and the `update_updated_at_column`
trigger refreshes `updated_at` and increments `version` (the
`detect_conflicts` trigger never fires here because the overwrite does not
change `device_id`). -/
def resolvedRow (latest : Sale) (now : Int) (r : Sale) : Sale :=
  { r with
    product := latest.product
    quantity := latest.quantity
    price := latest.price
    total := latest.total
    customer := latest.customer
    notes := latest.notes
    payment_status := latest.payment_status
    payment_method := latest.payment_method
    amount_received := latest.amount_received
    sync_status := "synced"
    updated_at := now
    version := r.version + 1 }

/-! ## Concrete instances used by counterexamples and witnesses -/

/-- A stored record at version 1, last written by device `A`. -/
def sampleSale : Sale :=
  { id := 1, product := "Bananas", quantity := 3, price := 2, total := 6,
    customer := "alice", notes := "", payment_status := "pending",
    payment_method := "", amount_received := 0, created_at := 0,
    updated_at := 0, version := 1, device_id := "A", user_id := "anonymous",
    deleted_at := none, is_deleted := false, last_sync_at := none,
    sync_status := "synced" }

/-- A store holding just `sampleSale`. -/
def sampleStore : Store := ⟨[sampleSale], [], [], ["A"], 0, 2⟩

/-- A patch renaming the customer. -/
def samplePatch : SalePatch :=
  ⟨none, none, none, none, some "bob", none, none, none, none⟩

/-- A second patch, used for the interleaved writer. -/
def samplePatchB : SalePatch :=
  ⟨none, none, none, none, some "carol", none, none, none, none⟩

/-- The store after device `B` updates `sampleSale` (expected version 1,
which matches), bumping it to version 2. -/
def sampleStoreAfterB : Store :=
  (putSale sampleStore sampleStore 1 (some "B") samplePatchB (some 1) 10).1

/-- The sample record at version 2. -/
def sampleSaleV2 : Sale := { sampleSale with version := 2 }

/-- A store holding the version-2 record. -/
def sampleStoreV2 : Store := ⟨[sampleSaleV2], [], [], ["A"], 0, 2⟩

/-- First competing snapshot of record 1 (earlier `updated_at`). -/
def snapOne : Sale := { sampleSale with customer := "carol", updated_at := 10 }

/-- Second competing snapshot of record 1 (later `updated_at`,
written by device `B`). -/
def snapTwo : Sale :=
  { sampleSale with customer := "bob", updated_at := 20, device_id := "B" }

/-- An unresolved conflict between `snapOne` and `snapTwo`. -/
def sampleConflict : Conflict :=
  ⟨1, "sales", 1, "A", "B", snapOne, snapTwo, none, none, none, false, 0⟩

/-- A store holding `sampleSale` and the unresolved `sampleConflict`. -/
def sampleConflictStore : Store :=
  ⟨[sampleSale], [sampleConflict], [], ["A", "B"], 2, 2⟩

/-- A rate-limiter state in which key `d_websocket_message` already holds a
full one-second burst window of ten timestamps. -/
def sampleBurstRL : RLState :=
  [("d_websocket_message", ⟨[0, 1, 2, 3, 4, 5, 6, 7, 8, 9], 0, 0⟩)]

/-- Three connections: one bound to device `D`, one bound to another
device, one unbound; all open, all with working transports; plus one
closed connection. -/
def sampleConns : List Conn :=
  [⟨1, some "D", true, true⟩, ⟨2, some "E", true, true⟩,
   ⟨3, none, true, true⟩, ⟨4, some "E", false, true⟩]

/-! ## General helper lemmas -/

theorem rlLookup_rlSet_self (st : RLState) (k : String) (v : RLClient) :
    rlLookup (rlSet st k v) k = some v := by
  induction st with
  | nil => simp [rlSet, rlLookup]
  | cons p rest ih =>
    by_cases h : p.1 == k
    · simp [rlSet, h, rlLookup]
    · simp [rlSet, h, rlLookup, ih]

theorem rlLookup_rlSet_other (st : RLState) (k k' : String) (v : RLClient)
    (h : k' ≠ k) :
    rlLookup (rlSet st k v) k' = rlLookup st k' := by
  have hkk : (k == k') = false := by
    simp only [beq_eq_false_iff_ne]
    exact fun e => h e.symm
  induction st with
  | nil => simp [rlSet, rlLookup, hkk]
  | cons p rest ih =>
    by_cases hp : p.1 == k
    · have hp' : p.1 = k := by simpa using hp
      have hpk' : (p.1 == k') = false := by
        simpa [hp'] using hkk
      simp [rlSet, hp, rlLookup, hkk, hpk']
    · simp [rlSet, hp, rlLookup, ih]

theorem head?_filter_eq_find? {α : Type} (l : List α) (p : α → Bool) :
    (l.filter p).head? = l.find? p := by
  induction l with
  | nil => rfl
  | cons a t ih => by_cases h : p a <;> simp [List.filter_cons, h, List.find?, ih]

theorem find?_map_ite {α : Type} (l : List α) (cond : α → Bool) (f : α → α)
    (p : α → Bool) (hp : ∀ a, p (f a) = p a) :
    (l.map (fun a => if cond a then f a else a)).find? p
      = (l.find? p).map (fun a => if cond a then f a else a) := by
  induction l with
  | nil => rfl
  | cons a t ih =>
    by_cases hc : cond a
    · by_cases hpa : p a <;> simp [List.find?, hc, hp, hpa, ih]
    · by_cases hpa : p a <;> simp [List.find?, hc, hpa, ih]

/-! ## Trigger-pipeline lemmas -/

theorem applyRowTriggers_fst (old new : Sale) (now : Int) (cid : Nat) :
    (applyRowTriggers old new now cid).1
      = update_updated_at_column old
          (if detectHit old new then { new with sync_status := "conflict" }
           else new) now := by
  by_cases h : detectHit old new <;> simp [applyRowTriggers, detect_conflicts, h]

theorem applyRowTriggers_row (assign : Sale → Sale) (now : Int) (cid : Nat)
    (s : Sale) :
    (applyRowTriggers s (assign s) now cid).1 = rowAfterUpdate assign now s := by
  rw [applyRowTriggers_fst]; rfl

theorem rowAfterUpdate_version (assign : Sale → Sale) (now : Int) (s : Sale) :
    (rowAfterUpdate assign now s).version = s.version + 1 := by
  by_cases h : detectHit s (assign s) <;>
    simp [rowAfterUpdate, update_updated_at_column, h]

theorem rowAfterUpdate_id (assign : Sale → Sale) (now : Int)
    (hid : ∀ s, (assign s).id = s.id) (s : Sale) :
    (rowAfterUpdate assign now s).id = s.id := by
  by_cases h : detectHit s (assign s) <;>
    simp [rowAfterUpdate, update_updated_at_column, h, hid]

theorem runRows_rows (cond : Sale → Bool) (assign : Sale → Sale) (now : Int) :
    ∀ (l : List Sale) (cid : Nat),
      (runRows cond assign now l cid).rows
        = l.map (fun s => if cond s then rowAfterUpdate assign now s else s) := by
  intro l
  induction l with
  | nil => intro cid; rfl
  | cons s t ih =>
    intro cid
    by_cases hc : cond s <;>
      simp [runRows, hc, ih, applyRowTriggers_row]

theorem runRows_returning (cond : Sale → Bool) (assign : Sale → Sale) (now : Int) :
    ∀ (l : List Sale) (cid : Nat),
      (runRows cond assign now l cid).returning
        = (l.filter cond).map (rowAfterUpdate assign now) := by
  intro l
  induction l with
  | nil => intro cid; rfl
  | cons s t ih =>
    intro cid
    by_cases hc : cond s <;>
      simp [runRows, hc, ih, applyRowTriggers_row, List.filter_cons]

theorem runRows_no_conflicts (cond : Sale → Bool) (assign : Sale → Sale)
    (now : Int) (h : ∀ s, detectHit s (assign s) = false) :
    ∀ (l : List Sale) (cid : Nat),
      (runRows cond assign now l cid).newConflicts = []
        ∧ (runRows cond assign now l cid).nextCid = cid := by
  intro l
  induction l with
  | nil => intro cid; exact ⟨rfl, rfl⟩
  | cons s t ih =>
    intro cid
    by_cases hc : cond s <;>
      simp [runRows, hc, ih, applyRowTriggers, detect_conflicts, h]

theorem runRows_map_id (cond : Sale → Bool) (assign : Sale → Sale) (now : Int)
    (hid : ∀ s, (assign s).id = s.id) (l : List Sale) (cid : Nat) :
    ((runRows cond assign now l cid).rows).map (fun s => s.id)
      = l.map (fun s => s.id) := by
  rw [runRows_rows, List.map_map]
  refine List.map_congr_left ?_
  intro s _
  by_cases hc : cond s <;> simp [hc, rowAfterUpdate_id assign now hid]

/-! ## Operation-level characterizations -/

theorem putSale_versionConflict (st : Store) (i : Nat) (dev : String)
    (p : SalePatch) (v : Int) (now : Int) (cur : Sale)
    (hcur : getCurrentSale st i = some cur)
    (hv0 : v ≠ 0) (hvne : cur.version ≠ v) :
    putSale st st i (some dev) p (some v) now
      = (st, PutResponse.versionConflict cur.version cur) := by
  have hfail : versionCheckFails cur (some v) = true := by
    simp [versionCheckFails, hv0, hvne]
  simp [putSale, hcur, hfail]

theorem putSale_ok (st : Store) (i : Nat) (dev : String) (p : SalePatch)
    (version : Option Int) (now : Int) (cur : Sale)
    (hcur : getCurrentSale st i = some cur)
    (hvc : versionCheckFails cur version = false)
    (hq : p.quantity.any (fun q => q ≤ 0) = false)
    (hpr : p.price.any (fun q => q ≤ 0) = false)
    (ht : p.total.any (fun q => q ≤ 0) = false) :
    putSale st st i (some dev) p version now
      = ((runSalesUpdate st (saleLive i) (putAssign p dev now) now).1,
         PutResponse.ok (rowAfterUpdate (putAssign p dev now) now cur)) := by
  have hret : (runSalesUpdate st (saleLive i) (putAssign p dev now) now).2.head?
      = some (rowAfterUpdate (putAssign p dev now) now cur) := by
    simp only [runSalesUpdate, runRows_returning, List.head?_map,
      head?_filter_eq_find?]
    rw [show st.sales.find? (saleLive i) = some cur from hcur]
    rfl
  simp only [putSale, hcur, hvc, hq, hpr, ht, Bool.false_eq_true, if_false]
  rw [hret]

theorem soft_delete_found (st : Store) (i : Nat) (dev : String) (now : Int)
    (r : Sale) (hr : st.sales.find? (saleLive i) = some r) :
    (soft_delete_sale st i dev now).2 = true := by
  have hret : (runSalesUpdate st (saleLive i) (softDeleteAssign dev now) now).2.head?
      = some (rowAfterUpdate (softDeleteAssign dev now) now r) := by
    simp only [runSalesUpdate, runRows_returning, List.head?_map,
      head?_filter_eq_find?]
    rw [show st.sales.find? (saleLive i) = some r from hr]
    rfl
  have hne : (runSalesUpdate st (saleLive i) (softDeleteAssign dev now) now).2 ≠ [] := by
    intro hnil
    rw [hnil] at hret
    exact Option.noConfusion hret
  simp [soft_delete_sale, List.isEmpty_iff, hne]

theorem soft_delete_sales (st : Store) (i : Nat) (dev : String) (now : Int) :
    (soft_delete_sale st i dev now).1.sales
      = st.sales.map (fun s =>
          if saleLive i s then rowAfterUpdate (softDeleteAssign dev now) now s
          else s) := by
  simp [soft_delete_sale, runSalesUpdate, runRows_rows]

theorem softDeleteRow_flags (dev : String) (now : Int) (s : Sale) :
    (rowAfterUpdate (softDeleteAssign dev now) now s).is_deleted = true
      ∧ (rowAfterUpdate (softDeleteAssign dev now) now s).deleted_at = some now
      ∧ (rowAfterUpdate (softDeleteAssign dev now) now s).version = s.version + 1
      ∧ (rowAfterUpdate (softDeleteAssign dev now) now s).id = s.id := by
  unfold rowAfterUpdate update_updated_at_column
  split <;> simp [softDeleteAssign]

theorem resolveAssign_no_hit (latest : Sale) (s : Sale) :
    detectHit s (resolveAssign latest s) = false := by
  simp [detectHit, resolveAssign]

theorem rowAfterUpdate_resolveAssign (latest : Sale) (now : Int) (s : Sale) :
    rowAfterUpdate (resolveAssign latest) now s = resolvedRow latest now s := by
  unfold rowAfterUpdate
  rw [resolveAssign_no_hit]
  rfl

theorem resolve_char (st : Store) (cid : Nat) (now : Int) (c : Conflict)
    (hc : conflictById st cid = some c) :
    resolve_conflict_last_write_wins st cid now
      = ({ st with
            sales := st.sales.map (fun s =>
              if s.id == c.record_id then
                rowAfterUpdate (resolveAssign (lwwChoice c)) now s
              else s),
            conflicts := st.conflicts.map (fun k =>
              if k.id == cid then stampResolved k (lwwChoice c) now else k) },
         true) := by
  have hnc := runRows_no_conflicts (fun s => s.id == c.record_id)
    (resolveAssign (lwwChoice c)) now
    (fun s => resolveAssign_no_hit (lwwChoice c) s) st.sales st.nextCid
  simp only [resolve_conflict_last_write_wins, hc, runSalesUpdate,
    runRows_rows, hnc.1, hnc.2, List.append_nil]

theorem resolve_returns_true (st : Store) (cid : Nat) (now : Int) (c : Conflict)
    (hc : conflictById st cid = some c) :
    (resolve_conflict_last_write_wins st cid now).2 = true := by
  rw [resolve_char st cid now c hc]

theorem resolve_conflict_after (st : Store) (cid : Nat) (now : Int)
    (c : Conflict) (hc : conflictById st cid = some c) :
    conflictById (resolve_conflict_last_write_wins st cid now).1 cid
      = some (stampResolved c (lwwChoice c) now) := by
  rw [resolve_char st cid now c hc]
  show (st.conflicts.map (fun k =>
      if k.id == cid then stampResolved k (lwwChoice c) now else k)).find?
        (fun k => k.id == cid)
    = some (stampResolved c (lwwChoice c) now)
  rw [find?_map_ite st.conflicts (fun k => k.id == cid)
    (fun k => stampResolved k (lwwChoice c) now) (fun k => k.id == cid)
    (fun k => by simp [stampResolved])]
  have hcid : (c.id == cid) = true := by
    have h2 := List.find?_some
      (show st.conflicts.find? (fun k => k.id == cid) = some c from hc)
    simpa using h2
  have heq : c.id = cid := by simpa using hcid
  rw [show st.conflicts.find? (fun k => k.id == cid) = some c from hc]
  simp [heq]

theorem resolve_sale_after (st : Store) (cid : Nat) (now : Int)
    (c : Conflict) (r : Sale) (hc : conflictById st cid = some c)
    (hr : st.sales.find? (fun s => s.id == c.record_id) = some r) :
    ((resolve_conflict_last_write_wins st cid now).1).sales.find?
        (fun s => s.id == c.record_id)
      = some (resolvedRow (lwwChoice c) now r) := by
  rw [resolve_char st cid now c hc]
  show (st.sales.map (fun s =>
      if s.id == c.record_id then
        rowAfterUpdate (resolveAssign (lwwChoice c)) now s
      else s)).find? (fun s => s.id == c.record_id)
    = some (resolvedRow (lwwChoice c) now r)
  rw [find?_map_ite st.sales (fun s => s.id == c.record_id)
    (rowAfterUpdate (resolveAssign (lwwChoice c)) now)
    (fun s => s.id == c.record_id)
    (fun s => by
      have hid := rowAfterUpdate_id (resolveAssign (lwwChoice c)) now
        (fun x => rfl) s
      simp [hid])]
  have hid : (r.id == c.record_id) = true := by
    have h2 := List.find?_some hr
    simpa using h2
  have heq : r.id = c.record_id := by simpa using hid
  rw [hr]
  simp [heq, rowAfterUpdate_resolveAssign]

theorem resolve_sales_ids (st : Store) (cid : Nat) (now : Int) :
    ((resolve_conflict_last_write_wins st cid now).1).sales.map (fun s => s.id)
      = st.sales.map (fun s => s.id) := by
  cases hc : conflictById st cid with
  | none => simp [resolve_conflict_last_write_wins, hc]
  | some c =>
    rw [resolve_char st cid now c hc]
    show (st.sales.map (fun s =>
        if s.id == c.record_id then
          rowAfterUpdate (resolveAssign (lwwChoice c)) now s
        else s)).map (fun s => s.id) = st.sales.map (fun s => s.id)
    rw [List.map_map]
    refine List.map_congr_left ?_
    intro s _
    have hid := rowAfterUpdate_id (resolveAssign (lwwChoice c)) now
      (fun x => rfl) s
    by_cases hcnd : s.id = c.record_id <;> simp [hcnd, hid]

/-! ## Claim theorems -/

/-- C1 counterexample: the claim fails at version V = 1.  The stored
record has current version 1; an update supplying
`expectedVersion = V - 1 = 0` hits the JavaScript truthiness guard
`if (version && ...)` — `0` is falsy — so the optimistic-lock comparison
is skipped, the handler answers 200 instead of 409, and the record is
silently overwritten. -/
theorem put_versionMinusOne_overwrites_at_v1 :
    sampleSale.version = 1
      ∧ getCurrentSale sampleStore 1 = some sampleSale
      ∧ putStatus (putSale sampleStore sampleStore 1 (some "B") samplePatch
          (some (sampleSale.version - 1)) 5).2 = 200
      ∧ (getCurrentSale ((putSale sampleStore sampleStore 1 (some "B")
            samplePatch (some (sampleSale.version - 1)) 5).1) 1).map
          (fun s => s.customer) = some "bob" := by
  decide

/-- C1 (amended): for every stored Record whose current version V is at
least 2, an update request supplying `expectedVersion = V - 1` returns
VersionConflict (HTTP 409) carrying the current server-side Record at
version V, and the store — hence the Record — is not modified. -/
theorem put_conflict_when_expected_is_prev_version (st : Store) (i : Nat)
    (dev : String) (p : SalePatch) (now : Int) (cur : Sale)
    (hcur : getCurrentSale st i = some cur) (hV : 2 ≤ cur.version) :
    putSale st st i (some dev) p (some (cur.version - 1)) now
        = (st, PutResponse.versionConflict cur.version cur)
      ∧ putStatus (PutResponse.versionConflict cur.version cur) = 409 := by
  refine ⟨putSale_versionConflict st i dev p (cur.version - 1) now cur hcur
    ?_ ?_, rfl⟩
  · omega
  · omega

/-- Witness for the amended C1 theorem at the version-2 sample store. -/
theorem put_conflict_when_expected_is_prev_version_witness :
    putSale sampleStoreV2 sampleStoreV2 1 (some "B") samplePatch (some 1) 5
        = (sampleStoreV2, PutResponse.versionConflict 2 sampleSaleV2)
      ∧ putStatus (PutResponse.versionConflict 2 sampleSaleV2) = 409 :=
  put_conflict_when_expected_is_prev_version sampleStoreV2 1 "B" samplePatch
    5 sampleSaleV2 rfl (by decide)

/-- C2 evidence: an ordinary sequential cross-device update creates a
Conflict.  Record 1 is at version 1, last written by device `A`; device
`B` updates it supplying the observed current version 1, which passes the
optimistic-lock check (status 200).  Because the UPDATE statement never
assigns `version`, the trigger condition `OLD.version != NEW.version - 1`
is vacuously true, so `detect_conflicts` inserts a conflicts row and marks
the record `sync_status = 'conflict'` — contradicting the claim that no
Conflict is created when the writer observed the current version. -/
theorem sequential_cross_device_update_creates_conflict :
    sampleSale.version = 1
      ∧ sampleSale.device_id = "A"
      ∧ versionCheckFails sampleSale (some 1) = false
      ∧ putStatus (putSale sampleStore sampleStore 1 (some "B") samplePatch
          (some 1) 5).2 = 200
      ∧ ((putSale sampleStore sampleStore 1 (some "B") samplePatch
          (some 1) 5).1).conflicts.length = 1
      ∧ (getCurrentSale ((putSale sampleStore sampleStore 1 (some "B")
            samplePatch (some 1) 5).1) 1).map (fun s => s.sync_status)
          = some "conflict" := by
  decide

/-- C3 evidence: the version check and the write are evaluated against
different snapshots, losing an update.  Device `B` commits an update that
bumps record 1 from version 1 to version 2 (customer `carol`).  Device `A`
had already performed its read against the old snapshot (version 1); its
handler's version check passes against that stale read and its separate
write transaction then applies to the new store, overwriting `B`'s data
with status 200.  Evaluating the same request against a single consistent
snapshot instead returns 409, showing the two-transaction split is what
loses the update. -/
theorem put_read_write_split_loses_update :
    (getCurrentSale sampleStoreAfterB 1).map (fun s => s.version) = some 2
      ∧ (getCurrentSale sampleStoreAfterB 1).map (fun s => s.customer)
          = some "carol"
      ∧ putStatus (putSale sampleStore sampleStoreAfterB 1 (some "A")
          samplePatch (some 1) 20).2 = 200
      ∧ (getCurrentSale ((putSale sampleStore sampleStoreAfterB 1 (some "A")
            samplePatch (some 1) 20).1) 1).map (fun s => s.customer)
          = some "bob"
      ∧ putStatus (putSale sampleStoreAfterB sampleStoreAfterB 1 (some "A")
          samplePatch (some 1) 20).2 = 409 := by
  decide

/-- C4: resolving an unresolved Conflict with `last_write_wins` selects
as canonical whichever stored snapshot has the later `updatedAt` — a tie
resolving deterministically to the second snapshot — stamps the Conflict
resolved with that snapshot, the strategy tag and the resolution time, and
overwrites the live Record's mutable fields from it with
`syncStatus = synced`. -/
theorem resolve_lww_spec (st : Store) (cid : Nat) (now : Int) (c : Conflict)
    (r : Sale) (hc : conflictById st cid = some c)
    (hunres : c.is_resolved = false)
    (hr : st.sales.find? (fun s => s.id == c.record_id) = some r) :
    (resolve_conflict_last_write_wins st cid now).2 = true
      ∧ conflictById (resolve_conflict_last_write_wins st cid now).1 cid
          = some (stampResolved c (lwwChoice c) now)
      ∧ (stampResolved c (lwwChoice c) now).is_resolved = true
      ∧ (stampResolved c (lwwChoice c) now).resolution_strategy
          = some "last_write_wins"
      ∧ (stampResolved c (lwwChoice c) now).resolution_data
          = some (lwwChoice c)
      ∧ (stampResolved c (lwwChoice c) now).resolved_at = some now
      ∧ (c.data_2.updated_at < c.data_1.updated_at → lwwChoice c = c.data_1)
      ∧ (c.data_1.updated_at ≤ c.data_2.updated_at → lwwChoice c = c.data_2)
      ∧ ((resolve_conflict_last_write_wins st cid now).1).sales.find?
            (fun s => s.id == c.record_id)
          = some (resolvedRow (lwwChoice c) now r)
      ∧ (resolvedRow (lwwChoice c) now r).sync_status = "synced" := by
  refine ⟨resolve_returns_true st cid now c hc,
    resolve_conflict_after st cid now c hc, rfl, rfl, rfl, rfl, ?_, ?_,
    resolve_sale_after st cid now c r hc hr, rfl⟩
  · intro h
    rw [lwwChoice, if_pos h]
  · intro h
    rw [lwwChoice, if_neg (by omega)]

/-- Witness for the C4 theorem at the sample conflict store: snapshot 2
has the later timestamp and becomes canonical. -/
theorem resolve_lww_spec_witness :
    conflictById sampleConflictStore 1 = some sampleConflict
      ∧ (resolve_conflict_last_write_wins sampleConflictStore 1 100).2 = true
      ∧ conflictById
            (resolve_conflict_last_write_wins sampleConflictStore 1 100).1 1
          = some (stampResolved sampleConflict (lwwChoice sampleConflict) 100)
      ∧ lwwChoice sampleConflict = snapTwo :=
  ⟨rfl,
   (resolve_lww_spec sampleConflictStore 1 100 sampleConflict sampleSale
     rfl rfl rfl).1,
   (resolve_lww_spec sampleConflictStore 1 100 sampleConflict sampleSale
     rfl rfl rfl).2.1,
   by decide⟩

/-- C5 counterexample: resolving the same Conflict twice is not a no-op.
At the sample conflict store, the first resolution leaves the live record
at version 2; the second resolution re-fires the UPDATE triggers and bumps
it to version 3, so the store after the second call differs from the store
after the first. -/
theorem resolve_twice_changes_state :
    (getCurrentSale
        ((resolve_conflict_last_write_wins sampleConflictStore 1 100).1) 1).map
      (fun s => s.version) = some 2
      ∧ (getCurrentSale
            ((resolve_conflict_last_write_wins
              (resolve_conflict_last_write_wins sampleConflictStore 1 100).1
              1 100).1) 1).map (fun s => s.version) = some 3
      ∧ (resolve_conflict_last_write_wins
            (resolve_conflict_last_write_wins sampleConflictStore 1 100).1
            1 100).1
          ≠ (resolve_conflict_last_write_wins sampleConflictStore 1 100).1 := by
  decide

/-- C5 (amended): resolving the same Conflict a second time with
`last_write_wins` selects the same canonical snapshot and rewrites the
same business-field values onto the live Record, and the second call still
reports success — but it is not a silent no-op: the Conflict's
`resolved_at` is re-stamped with the second call's time and the live
Record's UPDATE re-fires the row triggers, incrementing `version` and
refreshing `updated_at` again. -/
theorem resolve_twice_same_canonical_but_bumps_version (st : Store)
    (cid : Nat) (now1 now2 : Int) (c : Conflict) (r : Sale)
    (hc : conflictById st cid = some c)
    (hr : st.sales.find? (fun s => s.id == c.record_id) = some r) :
    (resolve_conflict_last_write_wins
        (resolve_conflict_last_write_wins st cid now1).1 cid now2).2 = true
      ∧ conflictById (resolve_conflict_last_write_wins
            (resolve_conflict_last_write_wins st cid now1).1 cid now2).1 cid
          = some (stampResolved c (lwwChoice c) now2)
      ∧ (stampResolved c (lwwChoice c) now2).resolution_data
          = some (lwwChoice c)
      ∧ ((resolve_conflict_last_write_wins
            (resolve_conflict_last_write_wins st cid now1).1 cid now2).1).sales.find?
            (fun s => s.id == c.record_id)
          = some { resolvedRow (lwwChoice c) now1 r with
                   updated_at := now2,
                   version := (resolvedRow (lwwChoice c) now1 r).version + 1 } := by
  have h1c := resolve_conflict_after st cid now1 c hc
  have h1r := resolve_sale_after st cid now1 c r hc hr
  refine ⟨resolve_returns_true _ cid now2 _ h1c, ?_, rfl, ?_⟩
  · exact resolve_conflict_after _ cid now2
      (stampResolved c (lwwChoice c) now1) h1c
  · exact resolve_sale_after _ cid now2
      (stampResolved c (lwwChoice c) now1)
      (resolvedRow (lwwChoice c) now1 r) h1c h1r

/-- Witness for the amended C5 theorem at the sample conflict store. -/
theorem resolve_twice_same_canonical_but_bumps_version_witness :
    conflictById sampleConflictStore 1 = some sampleConflict
      ∧ (resolve_conflict_last_write_wins
          (resolve_conflict_last_write_wins sampleConflictStore 1 100).1
          1 200).2 = true
      ∧ conflictById (resolve_conflict_last_write_wins
            (resolve_conflict_last_write_wins sampleConflictStore 1 100).1
            1 200).1 1
          = some (stampResolved sampleConflict (lwwChoice sampleConflict) 200) :=
  ⟨rfl,
   (resolve_twice_same_canonical_but_bumps_version sampleConflictStore 1
     100 200 sampleConflict sampleSale rfl rfl).1,
   (resolve_twice_same_canonical_but_bumps_version sampleConflictStore 1
     100 200 sampleConflict sampleSale rfl rfl).2.1⟩

/-! ## Rate-limiter lemmas for C6 -/

theorem runDecisions_window_allowed (clientId endpoint : String)
    (lo hi : Int) (hwin : hi < lo + 1000) :
    ∀ (ts : List Int) (st : RLState) (acc : List Int) (lr : Int) (vio : Nat),
      rlLookup st (clientId ++ "_" ++ endpoint) = some ⟨acc, lr, vio⟩ →
      (∀ t ∈ acc, lo ≤ t ∧ t ≤ hi) →
      (∀ t ∈ ts, lo ≤ t ∧ t ≤ hi) →
      acc.length + ts.length ≤ maxRequestsPerSecond →
      (runDecisions clientId endpoint st ts).1 = List.replicate ts.length true
        ∧ rlLookup (runDecisions clientId endpoint st ts).2
            (clientId ++ "_" ++ endpoint) = some ⟨acc ++ ts, lr, vio⟩ := by
  intro ts
  induction ts with
  | nil =>
    intro st acc lr vio hlk hacc hts hlen
    exact ⟨rfl, by simpa using hlk⟩
  | cons t ts ih =>
    intro st acc lr vio hlk hacc hts hlen
    have htlo : lo ≤ t := (hts t (by simp)).1
    have hthi : t ≤ hi := (hts t (by simp)).2
    have hfil1 : acc.filter (fun x => x > t - 60000) = acc :=
      List.filter_eq_self.mpr (fun v hv => by
        have hb := hacc v hv
        simp only [decide_eq_true_eq]
        omega)
    have hfil2 : acc.filter (fun x => x > t - 1000) = acc :=
      List.filter_eq_self.mpr (fun v hv => by
        have hb := hacc v hv
        simp only [decide_eq_true_eq]
        omega)
    have hlt60 : ¬ maxRequestsPerMinute ≤ acc.length := by
      simp only [maxRequestsPerMinute]
      simp only [maxRequestsPerSecond] at hlen
      simp only [List.length_cons] at hlen
      omega
    have hlt10 : ¬ maxRequestsPerSecond ≤ acc.length := by
      simp only [maxRequestsPerSecond] at hlen ⊢
      simp only [List.length_cons] at hlen
      omega
    have hstep : isAllowed st clientId endpoint t
        = (⟨true, (maxRequestsPerMinute : Int) - (acc.length + 1), none,
            some vio⟩,
           rlSet st (clientId ++ "_" ++ endpoint)
             ⟨acc ++ [t], lr, vio⟩) := by
      simp only [isAllowed, hlk, hfil1, hfil2, hlt60, hlt10, if_false]
    have hnext := ih (rlSet st (clientId ++ "_" ++ endpoint)
        ⟨acc ++ [t], lr, vio⟩) (acc ++ [t]) lr vio
      (rlLookup_rlSet_self st (clientId ++ "_" ++ endpoint) ⟨acc ++ [t], lr, vio⟩)
      (by
        intro v hv
        rcases List.mem_append.mp hv with hv1 | hv2
        · exact hacc v hv1
        · have : v = t := by simpa using hv2
          exact this ▸ ⟨htlo, hthi⟩)
      (fun v hv => hts v (by simp [hv]))
      (by
        simp only [List.length_append, List.length_cons, List.length_nil] at *
        omega)
    constructor
    · simp only [runDecisions, hstep, hnext.1, List.length_cons,
        List.replicate_succ]
    · simp only [runDecisions, hstep]
      rw [hnext.2]
      simp

theorem isAllowed_burst_reject (st : RLState) (clientId endpoint : String)
    (t lo hi : Int) (acc : List Int) (lr : Int) (vio : Nat)
    (hlk : rlLookup st (clientId ++ "_" ++ endpoint) = some ⟨acc, lr, vio⟩)
    (hacc : ∀ v ∈ acc, lo ≤ v ∧ v ≤ hi) (htlo : lo ≤ t) (hthi : t ≤ hi)
    (hwin : hi < lo + 1000)
    (hlen : acc.length = maxRequestsPerSecond) :
    (isAllowed st clientId endpoint t).1.allowed = false := by
  have hfil1 : acc.filter (fun x => x > t - 60000) = acc :=
    List.filter_eq_self.mpr (fun v hv => by
      have hb := hacc v hv
      simp only [decide_eq_true_eq]
      omega)
  have hfil2 : acc.filter (fun x => x > t - 1000) = acc :=
    List.filter_eq_self.mpr (fun v hv => by
      have hb := hacc v hv
      simp only [decide_eq_true_eq]
      omega)
  have hlt60 : ¬ maxRequestsPerMinute ≤ acc.length := by
    simp only [maxRequestsPerMinute, hlen, maxRequestsPerSecond]
    omega
  have hge10 : maxRequestsPerSecond ≤ acc.length := by
    simp [hlen]
  simp only [isAllowed, hlk, hfil1, hfil2, hlt60, hge10, if_false, if_true]

theorem runDecisions_append (clientId endpoint : String) :
    ∀ (l1 l2 : List Int) (st : RLState),
      (runDecisions clientId endpoint st (l1 ++ l2)).1
        = (runDecisions clientId endpoint st l1).1
            ++ (runDecisions clientId endpoint
                (runDecisions clientId endpoint st l1).2 l2).1
      ∧ (runDecisions clientId endpoint st (l1 ++ l2)).2
        = (runDecisions clientId endpoint
            (runDecisions clientId endpoint st l1).2 l2).2 := by
  intro l1
  induction l1 with
  | nil => intro l2 st; exact ⟨rfl, rfl⟩
  | cons t ts ih =>
    intro l2 st
    have h := ih l2 (isAllowed st clientId endpoint t).2
    simp only [List.cons_append, runDecisions, List.append_eq]
    rw [h.1, h.2]
    simp

theorem runPings_decisions (deviceKey : String) :
    ∀ (ts : List Int) (rl : RLState),
      (runPings deviceKey rl ts).1.map wsReplyType
        = (runDecisions deviceKey "websocket_message" rl ts).1.map
            (fun b => if b then "pong" else "rate_limit_exceeded")
      ∧ (runPings deviceKey rl ts).2
        = (runDecisions deviceKey "websocket_message" rl ts).2 := by
  intro ts
  induction ts with
  | nil => intro rl; exact ⟨rfl, rfl⟩
  | cons t ts ih =>
    intro rl
    cases hA : (isAllowed rl deviceKey "websocket_message" t).1.allowed <;>
      simp [runPings, runDecisions, handleWsMessage, hA, wsReplyType,
        (ih _).1, (ih _).2]

set_option maxHeartbeats 2000000 in
/-- C6: for a client key with no recorded requests, any 11 admission
checks whose timestamps all fall inside one window shorter than a second
are decided accepted for the first 10 and rejected for the 11th
(`allowed = false`); correspondingly, 11 `ping` messages on the real-time
channel are answered with 10 `pong` replies, while the 11th is answered
with `rate_limit_exceeded` instead of being processed. -/
theorem burst_cap_rejects_eleventh (st : RLState) (clientId : String)
    (t0 t1 t2 t3 t4 t5 t6 t7 t8 t9 t10 lo hi : Int)
    (hfresh : rlLookup st (clientId ++ "_" ++ "websocket_message") = none)
    (hmem : ∀ t ∈ [t0, t1, t2, t3, t4, t5, t6, t7, t8, t9, t10],
      lo ≤ t ∧ t ≤ hi)
    (hwin : hi < lo + 1000) :
    (runDecisions clientId "websocket_message" st
        [t0, t1, t2, t3, t4, t5, t6, t7, t8, t9, t10]).1
      = List.replicate 10 true ++ [false]
    ∧ (runPings clientId st
        [t0, t1, t2, t3, t4, t5, t6, t7, t8, t9, t10]).1.map wsReplyType
      = List.replicate 10 "pong" ++ ["rate_limit_exceeded"] := by
  have hstep0 : isAllowed st clientId "websocket_message" t0
      = (⟨true, (maxRequestsPerMinute : Int) - 1, none, none⟩,
         rlSet st (clientId ++ "_" ++ "websocket_message") ⟨[t0], t0, 0⟩) := by
    simp only [isAllowed, hfresh]
  have hmain := runDecisions_window_allowed clientId "websocket_message"
    lo hi hwin [t1, t2, t3, t4, t5, t6, t7, t8, t9]
    (rlSet st (clientId ++ "_" ++ "websocket_message") ⟨[t0], t0, 0⟩)
    [t0] t0 0
    (rlLookup_rlSet_self st (clientId ++ "_" ++ "websocket_message")
      ⟨[t0], t0, 0⟩)
    (by
      intro v hv
      have : v = t0 := by simpa using hv
      exact this ▸ hmem t0 (by simp))
    (by
      intro v hv
      simp only [List.mem_cons, List.not_mem_nil, or_false] at hv
      rcases hv with h | h | h | h | h | h | h | h | h <;> subst h <;>
        exact hmem _ (by simp))
    (by simp [maxRequestsPerSecond])
  have hacc10 : ∀ v ∈ ([t0] ++ [t1, t2, t3, t4, t5, t6, t7, t8, t9] : List Int),
      lo ≤ v ∧ v ≤ hi := by
    intro v hv
    simp only [List.cons_append, List.nil_append, List.mem_cons,
      List.not_mem_nil, or_false] at hv
    rcases hv with h | h | h | h | h | h | h | h | h | h <;> subst h <;>
      exact hmem _ (by simp)
  have hlen10 : ([t0] ++ [t1, t2, t3, t4, t5, t6, t7, t8, t9] : List Int).length
      = maxRequestsPerSecond := by
    simp [maxRequestsPerSecond]
  have hreject := isAllowed_burst_reject _
    clientId "websocket_message" t10 lo hi _ t0 0
    hmain.2 hacc10
    (hmem t10 (by simp)).1 (hmem t10 (by simp)).2 hwin hlen10
  have happ := runDecisions_append clientId "websocket_message"
    [t1, t2, t3, t4, t5, t6, t7, t8, t9] [t10]
    (rlSet st (clientId ++ "_" ++ "websocket_message") ⟨[t0], t0, 0⟩)
  have hls : ([t0, t1, t2, t3, t4, t5, t6, t7, t8, t9, t10] : List Int)
      = t0 :: ([t1, t2, t3, t4, t5, t6, t7, t8, t9] ++ [t10]) := rfl
  have hdec : (runDecisions clientId "websocket_message" st
      [t0, t1, t2, t3, t4, t5, t6, t7, t8, t9, t10]).1
      = List.replicate 10 true ++ [false] := by
    rw [hls]
    show (isAllowed st clientId "websocket_message" t0).1.allowed ::
        (runDecisions clientId "websocket_message"
          (isAllowed st clientId "websocket_message" t0).2
          ([t1, t2, t3, t4, t5, t6, t7, t8, t9] ++ [t10])).1
      = List.replicate 10 true ++ [false]
    rw [hstep0]
    show true :: (runDecisions clientId "websocket_message"
        (rlSet st (clientId ++ "_" ++ "websocket_message") ⟨[t0], t0, 0⟩)
        ([t1, t2, t3, t4, t5, t6, t7, t8, t9] ++ [t10])).1
      = List.replicate 10 true ++ [false]
    rw [happ.1, hmain.1]
    show true :: (List.replicate 9 true
        ++ [(isAllowed ((runDecisions clientId "websocket_message"
              (rlSet st (clientId ++ "_" ++ "websocket_message")
                ⟨[t0], t0, 0⟩)
              [t1, t2, t3, t4, t5, t6, t7, t8, t9]).2)
            clientId "websocket_message" t10).1.allowed])
      = List.replicate 10 true ++ [false]
    rw [hreject]
    rfl
  refine ⟨hdec, ?_⟩
  rw [(runPings_decisions clientId
    [t0, t1, t2, t3, t4, t5, t6, t7, t8, t9, t10] st).1, hdec]
  rfl

/-- Witness for the C6 theorem: eleven pings within half a second from a
fresh limiter state. -/
theorem burst_cap_rejects_eleventh_witness :
    (runDecisions "d" "websocket_message" []
        [1000, 1010, 1020, 1030, 1040, 1050, 1060, 1070, 1080, 1090, 1100]).1
      = List.replicate 10 true ++ [false]
    ∧ (runPings "d" []
        [1000, 1010, 1020, 1030, 1040, 1050, 1060, 1070, 1080, 1090, 1100]).1.map
        wsReplyType
      = List.replicate 10 "pong" ++ ["rate_limit_exceeded"] :=
  burst_cap_rejects_eleventh [] "d" 1000 1010 1020 1030 1040 1050 1060 1070
    1080 1090 1100 1000 1100 rfl (by decide) (by decide)

/-! ## Broadcast lemmas for C7 -/

theorem toBatches_flatten (cs : List Conn) : (toBatches cs).flatten = cs := by
  induction cs using toBatches.induct with
  | case1 => simp [toBatches]
  | case2 cs h ih =>
    rw [toBatches, dif_neg h, List.flatten_cons, ih, List.take_append_drop]

theorem broadcastOutcomes_eq (cs : List Conn) (ex : Option String) :
    broadcastOutcomes cs ex = cs.map (fun c => (c, sendStep ex c)) := by
  conv_rhs => rw [← toBatches_flatten cs]
  simp [broadcastOutcomes, List.map_flatten]

theorem broadcastDelivered_eq_filter (ex : Option String) :
    ∀ cs : List Conn, (∀ c ∈ cs, c.sendOk = true) →
      broadcastDelivered cs ex
        = cs.filter (fun c => c.isOpen && c.deviceId != ex) := by
  have key : ∀ cs : List Conn, (∀ c ∈ cs, c.sendOk = true) →
      cs.filterMap (fun c =>
        if sendStep ex c = SendOutcome.delivered then some c else none)
        = cs.filter (fun c => c.isOpen && c.deviceId != ex) := by
    intro cs
    induction cs with
    | nil => intro _; rfl
    | cons c t ih =>
      intro hOk
      have hc := hOk c (by simp)
      have ht : ∀ x ∈ t, x.sendOk = true := fun x hx => hOk x (by simp [hx])
      simp only [List.filterMap_cons, List.filter_cons]
      rw [ih ht]
      by_cases hcond : c.isOpen = true ∧ ¬c.deviceId = ex
      · have hdel : sendStep ex c = SendOutcome.delivered := by
          simp [sendStep, hcond, hc]
        simp [hdel, hcond]
      · have hdel : ¬ sendStep ex c = SendOutcome.delivered := by
          simp [sendStep, hcond]
        simp [hdel, hcond]
  intro cs hOk
  unfold broadcastDelivered
  rw [broadcastOutcomes_eq, List.filterMap_map]
  have h := key cs hOk
  simpa [Function.comp] using h

/-- C7: for every registry snapshot whose transports all accept the send,
`broadcast` with `excludeDeviceId = D` delivers the event to exactly the
open connections whose bound deviceId differs from `D` — in particular it
never delivers to any connection bound to `D`, and it delivers to every
other currently open connection (bound to another device or still
unbound). -/
theorem broadcast_excludes_device_delivers_others (cs : List Conn)
    (D : String) (hOk : ∀ c ∈ cs, c.sendOk = true) :
    broadcastDelivered cs (some D)
        = cs.filter (fun c => c.isOpen && c.deviceId != some D)
      ∧ ∀ c ∈ broadcastDelivered cs (some D), c.deviceId ≠ some D := by
  have h := broadcastDelivered_eq_filter (some D) cs hOk
  refine ⟨h, ?_⟩
  intro c hc
  rw [h] at hc
  have hb : (c.isOpen && c.deviceId != some D) = true :=
    (List.mem_filter.mp hc).2
  intro he
  rw [he] at hb
  simp at hb

/-- Witness for the C7 theorem: of four connections — one bound to `D`,
one bound to `E`, one unbound, one closed — the broadcast excluding `D`
delivers exactly to the open `E`-bound and unbound connections. -/
theorem broadcast_excludes_device_delivers_others_witness :
    broadcastDelivered sampleConns (some "D")
        = [⟨2, some "E", true, true⟩, ⟨3, none, true, true⟩]
      ∧ ∀ c ∈ broadcastDelivered sampleConns (some "D"),
          c.deviceId ≠ some "D" := by
  have h := broadcast_excludes_device_delivers_others sampleConns "D"
    (by decide)
  exact ⟨h.1.trans (by decide), h.2⟩

/-- C8: every successful mutation of a Record increases its `version` by
exactly 1, and no operation physically removes a Record row.  For the
update path, a successful `PUT` returns the row at `version + 1` and
leaves the table's row ids unchanged; for the delete path,
`soft_delete_sale` reports success, leaves the row ids unchanged, and the
deleted row is merely flagged — `is_deleted = true`, `deleted_at` stamped,
`version` incremented, id intact; conflict resolution likewise rewrites
rows in place without removing any. -/
theorem mutation_bumps_version_and_keeps_row :
    (∀ (st : Store) (i : Nat) (dev : String) (p : SalePatch)
        (version : Option Int) (now : Int) (cur : Sale),
      getCurrentSale st i = some cur →
      versionCheckFails cur version = false →
      p.quantity.any (fun q => q ≤ 0) = false →
      p.price.any (fun q => q ≤ 0) = false →
      p.total.any (fun q => q ≤ 0) = false →
      (putSale st st i (some dev) p version now).2
          = PutResponse.ok (rowAfterUpdate (putAssign p dev now) now cur)
        ∧ (rowAfterUpdate (putAssign p dev now) now cur).version
            = cur.version + 1
        ∧ ((putSale st st i (some dev) p version now).1).sales.map
            (fun s => s.id) = st.sales.map (fun s => s.id))
    ∧ (∀ (st : Store) (i : Nat) (dev : String) (now : Int) (r : Sale),
      st.sales.find? (saleLive i) = some r →
      (soft_delete_sale st i dev now).2 = true
        ∧ ((soft_delete_sale st i dev now).1).sales.map (fun s => s.id)
            = st.sales.map (fun s => s.id)
        ∧ ((soft_delete_sale st i dev now).1).sales
            = st.sales.map (fun s =>
                if saleLive i s then
                  rowAfterUpdate (softDeleteAssign dev now) now s
                else s))
    ∧ (∀ (dev : String) (now : Int) (s : Sale),
      (rowAfterUpdate (softDeleteAssign dev now) now s).is_deleted = true
        ∧ (rowAfterUpdate (softDeleteAssign dev now) now s).deleted_at
            = some now
        ∧ (rowAfterUpdate (softDeleteAssign dev now) now s).version
            = s.version + 1
        ∧ (rowAfterUpdate (softDeleteAssign dev now) now s).id = s.id)
    ∧ (∀ (st : Store) (cid : Nat) (now : Int),
      ((resolve_conflict_last_write_wins st cid now).1).sales.map
          (fun s => s.id)
        = st.sales.map (fun s => s.id)) := by
  refine ⟨?_, ?_, softDeleteRow_flags, resolve_sales_ids⟩
  · intro st i dev p version now cur hcur hvc hq hpr ht
    have hok := putSale_ok st i dev p version now cur hcur hvc hq hpr ht
    refine ⟨by rw [hok], rowAfterUpdate_version _ _ _, ?_⟩
    rw [hok]
    show ((runRows (saleLive i) (putAssign p dev now) now st.sales
        st.nextCid).rows).map (fun s => s.id)
      = st.sales.map (fun s => s.id)
    exact runRows_map_id (saleLive i) (putAssign p dev now) now
      (fun s => rfl) st.sales st.nextCid
  · intro st i dev now r hr
    refine ⟨soft_delete_found st i dev now r hr, ?_, soft_delete_sales st i dev now⟩
    show ((runRows (saleLive i) (softDeleteAssign dev now) now st.sales
        st.nextCid).rows).map (fun s => s.id)
      = st.sales.map (fun s => s.id)
    exact runRows_map_id (saleLive i) (softDeleteAssign dev now) now
      (fun s => rfl) st.sales st.nextCid

/-- Witness for the C8 theorem: updating and soft-deleting the sample
record at version 1. -/
theorem mutation_bumps_version_and_keeps_row_witness :
    (putSale sampleStore sampleStore 1 (some "B") samplePatch (some 1) 5).2
        = PutResponse.ok (rowAfterUpdate (putAssign samplePatch "B" 5) 5
            sampleSale)
      ∧ (rowAfterUpdate (putAssign samplePatch "B" 5) 5 sampleSale).version
          = sampleSale.version + 1
      ∧ (soft_delete_sale sampleStore 1 "B" 7).2 = true :=
  ⟨(mutation_bumps_version_and_keeps_row.1 sampleStore 1 "B" samplePatch
      (some 1) 5 sampleSale rfl rfl rfl rfl rfl).1,
   (mutation_bumps_version_and_keeps_row.1 sampleStore 1 "B" samplePatch
      (some 1) 5 sampleSale rfl rfl rfl rfl rfl).2.1,
   (mutation_bumps_version_and_keeps_row.2.1 sampleStore 1 "B" 7 sampleSale
      rfl).1⟩

/-- C9: an audit-log append failure is invisible to the caller of the
mutation.  `logSyncOperation` called with a failing INSERT returns `null`
and leaves the store untouched instead of throwing, and the
`POST /api/sales` handler produces the identical response body and the
identical `sales` table whether or not the audit append failed — only the
`sync_log` table differs, and on failure it is simply left unchanged. -/
theorem audit_log_failure_is_swallowed :
    (∀ (st : Store) (deviceId op tbl : String) (rid : Option Nat)
        (oldD newD : Option Sale) (now : Int),
      logSyncOperation st true deviceId op tbl rid oldD newD now = (st, none))
    ∧ ∀ (st : Store) (conns : List Conn) (b : CreateBody) (now : Int),
      (postSale st conns b true now).2 = (postSale st conns b false now).2
        ∧ ((postSale st conns b true now).1).sales
            = ((postSale st conns b false now).1).sales
        ∧ ((postSale st conns b true now).1).syncLog = st.syncLog := by
  refine ⟨fun st d o tb r od nd n => rfl, ?_⟩
  intro st conns b now
  unfold postSale
  split
  · exact ⟨rfl, rfl, rfl⟩
  · split
    · exact ⟨rfl, rfl, rfl⟩
    · split
      · exact ⟨rfl, rfl, rfl⟩
      · split
        · exact ⟨rfl, rfl, rfl⟩
        · refine ⟨rfl, rfl, ?_⟩
          by_cases hdev : b.device_id.getD "" ∈ st.devices <;>
            simp [logSyncOperation, registerDevice, hdev]

/-- C10: a rejected admission check consumes no quota.  Whenever
`isAllowed` answers `allowed = false`, the client's entry existed already,
and the only state change is the time-based prune of its window plus the
violation-counter increment: the rejected call's own timestamp is not
recorded, `lastReset` is untouched, and every other client key's entry is
unchanged. -/
theorem rejected_request_consumes_no_quota (st : RLState)
    (clientId endpoint : String) (now : Int)
    (hrej : (isAllowed st clientId endpoint now).1.allowed = false) :
    ∃ client, rlLookup st (clientId ++ "_" ++ endpoint) = some client
      ∧ (isAllowed st clientId endpoint now).2
          = rlSet st (clientId ++ "_" ++ endpoint)
              ⟨client.requests.filter (fun t => t > now - 60000),
               client.lastReset, client.violations + 1⟩
      ∧ ∀ k, k ≠ clientId ++ "_" ++ endpoint →
          rlLookup ((isAllowed st clientId endpoint now).2) k
            = rlLookup st k := by
  cases hlk : rlLookup st (clientId ++ "_" ++ endpoint) with
  | none =>
    rw [show (isAllowed st clientId endpoint now).1.allowed = true by
      simp [isAllowed, hlk]] at hrej
    exact Bool.noConfusion hrej
  | some client =>
    refine ⟨client, rfl, ?_⟩
    by_cases h60 : maxRequestsPerMinute
        ≤ (client.requests.filter (fun t => t > now - 60000)).length
    · constructor
      · simp only [isAllowed, hlk, h60, if_true]
      · intro k hk
        simp only [isAllowed, hlk, h60, if_true]
        exact rlLookup_rlSet_other st (clientId ++ "_" ++ endpoint) k _ hk
    · by_cases h10 : maxRequestsPerSecond
          ≤ ((client.requests.filter (fun t => t > now - 60000)).filter
              (fun t => t > now - 1000)).length
      · constructor
        · simp only [isAllowed, hlk, h60, h10, if_true, if_false]
        · intro k hk
          simp only [isAllowed, hlk, h60, h10, if_true, if_false]
          exact rlLookup_rlSet_other st (clientId ++ "_" ++ endpoint) k _ hk
      · rw [show (isAllowed st clientId endpoint now).1.allowed = true by
          simp only [isAllowed, hlk, h60, h10, if_false]] at hrej
        exact Bool.noConfusion hrej

/-- Witness for the C10 theorem: a client whose one-second window already
holds ten timestamps is rejected, and the rejection records nothing new. -/
theorem rejected_request_consumes_no_quota_witness :
    (isAllowed sampleBurstRL "d" "websocket_message" 500).1.allowed = false
      ∧ ∃ client, rlLookup sampleBurstRL ("d" ++ "_" ++ "websocket_message")
            = some client
          ∧ (isAllowed sampleBurstRL "d" "websocket_message" 500).2
              = rlSet sampleBurstRL ("d" ++ "_" ++ "websocket_message")
                  ⟨client.requests.filter (fun t => t > 500 - 60000),
                   client.lastReset, client.violations + 1⟩
          ∧ ∀ k, k ≠ "d" ++ "_" ++ "websocket_message" →
              rlLookup ((isAllowed sampleBurstRL "d" "websocket_message"
                  500).2) k
                = rlLookup sampleBurstRL k :=
  ⟨by decide,
   rejected_request_consumes_no_quota sampleBurstRL "d" "websocket_message"
     500 (by decide)⟩

end BananaSales
